import Mathlib

/-!
# SmartFileCabinet: verification of the extraction pipeline and duplicate detector

Shallow embedding of the core logic of `backend/main.py` and
`backend/business_hub/ai.py` / `models.py` of the SmartFileCabinet repository.

Modelling conventions:
* Python strings are `String`; the repository only manipulates ASCII text in the
  code paths below, so `lower()` / `strip()` / the `\s` and `\w` character
  classes are modelled over ASCII (`Char.toLower`, explicit whitespace sets).
* Python floats are modelled as rationals (`ℚ`); `round(x, 3)` is modelled as
  round-half-to-even at three decimals on the rational value.
* Python `None` is `Option.none`; a function that can raise is `Except`.
* SQLite rows are lists in table order; `fetchone` is `List.find?`.
* The pydantic layer is pydantic v2 (the repository calls `model_dump()`),
  whose lax coercion for `datetime` fields accepts `datetime` objects, strings
  (RFC-3339 style or numeric timestamps, via `speedate`) and numbers, and
  rejects plain `datetime.date` objects.
-/

attribute [local semireducible] Rat.mul Rat.add Rat.sub Rat.inv Rat.ofScientific

namespace SFC

/-- ASCII lower-casing, modelling Python `str.lower()` on the ASCII inputs the
repository manipulates. -/
def pyLower (s : String) : String :=
  String.mk (s.data.map Char.toLower)

/-- Python's `\s` class / `str.strip()` whitespace, over ASCII. -/
def isPySpace (c : Char) : Bool :=
  c = ' ' ∨ c = '\t' ∨ c = '\n' ∨ c = '\r' ∨ c = '\x0b' ∨ c = '\x0c'

/-- Python `str.strip()` (no argument): drop whitespace at both ends. -/
def pyStrip (s : String) : String :=
  String.mk ((s.data.dropWhile (fun c => isPySpace c)).reverse.dropWhile
    (fun c => isPySpace c)).reverse

/-- Python word character (`\w`) over ASCII: letters, digits, underscore. -/
def isWordChar (c : Char) : Bool :=
  c.isAlpha ∨ c.isDigit ∨ c = '_'

/-- Whether an optional neighbouring character counts as a word character
(string edges count as non-word). -/
def wordAt : Option Char → Bool
  | none => false
  | some c => isWordChar c

/-- The separator class of `_norm_invoice_no`: `[\s\-_/\.]`. -/
def isInvSep (c : Char) : Bool :=
  isPySpace c ∨ c = '-' ∨ c = '_' ∨ c = '/' ∨ c = '.'

/-- `_norm_invoice_no` (backend/main.py): lower-case, delete separator
characters, strip leading zeros of the result; empty results (and falsy
inputs) become `None`. -/
def norm_invoice_no (s : Option String) : Option String :=
  match s with
  | none => none
  | some s =>
    if s = "" then none
    else
      let t := pyLower s
      let t := String.mk (t.data.filter (fun c => ¬ isInvSep c))
      let t := String.mk (t.data.dropWhile (fun c => c = '0'))
      if t = "" then none else some t

/-- The ordered alternatives of the vendor legal-suffix regex
`\b(llc|inc|corp|co\.?|ltd)\b`; `co\.?` greedily tries `co.` before `co`. -/
def vendorSuffixAlts : List (List Char) :=
  [['l','l','c'], ['i','n','c'], ['c','o','r','p'], ['c','o','.'], ['c','o'],
   ['l','t','d']]

/-- Try to match one regex alternative (a literal) at the head of `cs`,
checking the trailing `\b` against the first unconsumed character. -/
def matchAlt (pat : List Char) (cs : List Char) : Option (List Char) :=
  let rec go : List Char → List Char → Option (Char × List Char)
    | [], _ => none
    | [p], c :: rest => if c = p then some (p, rest) else none
    | p :: ps, c :: rest => if c = p then go ps rest else none
    | _ :: _, [] => none
  match go pat cs with
  | none => none
  | some (lastChar, rest) =>
    -- trailing \b: exactly one of (last matched char, next char) is a word char
    if wordAt (some lastChar) ≠ wordAt rest.head? then some rest else none

/-- One step of `re.sub(r'\b(llc|inc|corp|co\.?|ltd)\b', '', s)`: try the
alternatives in regex order at the current position (leading `\b` holds iff
the previous character is not a word character, since every alternative starts
with a letter). -/
def tryVendorSuffix (prev : Option Char) (cs : List Char) : Option (List Char) :=
  if wordAt prev then none
  else vendorSuffixAlts.findSome? (fun pat => matchAlt pat cs)

/-- Scan of the suffix-deleting substitution; `fuel` bounds recursion depth
(instantiated with the string length, which always suffices). -/
def subVendorSuffixes (fuel : Nat) (prev : Option Char) (cs : List Char) :
    List Char :=
  match fuel, cs with
  | 0, cs => cs
  | _, [] => []
  | fuel + 1, c :: rest =>
    match tryVendorSuffix prev (c :: rest) with
    | some remaining =>
      -- the previous character for the next position is the last consumed one;
      -- for boundary purposes only its word-ness matters, and every
      -- alternative ends in a letter or '.', so we recompute it directly
      let consumed := (c :: rest).length - remaining.length
      let lastConsumed := (c :: rest).get? (consumed - 1)
      subVendorSuffixes fuel lastConsumed remaining
    | none => c :: subVendorSuffixes fuel (some c) rest

/-- `re.sub(r'\s{2,}', ' ', s)`: collapse each maximal run of at least two
whitespace characters into a single space. -/
def collapseWs (fuel : Nat) (cs : List Char) : List Char :=
  match fuel, cs with
  | 0, cs => cs
  | _, [] => []
  | fuel + 1, c :: rest =>
    if isPySpace c then
      let run := rest.takeWhile (fun d => isPySpace d)
      let rest' := rest.drop run.length
      if run.length + 1 ≥ 2 then ' ' :: collapseWs fuel rest'
      else c :: collapseWs fuel rest
    else c :: collapseWs fuel rest

/-- `_norm_vendor` (backend/main.py): lower-case and strip, delete legal
suffix words, collapse whitespace runs, strip again; empty results (and falsy
inputs) become `None`. -/
def norm_vendor (s : Option String) : Option String :=
  match s with
  | none => none
  | some s =>
    if s = "" then none
    else
      let t := pyStrip (pyLower s)
      let t := String.mk (subVendorSuffixes t.length none t.data)
      let t := pyStrip (String.mk (collapseWs t.length t.data))
      if t = "" then none else some t

/-! ## difflib.SequenceMatcher(None, a, b).ratio()

Embedding of the CPython `difflib` ratio used by `_similar`: the
`find_longest_match` dynamic programme over `b2j` (with the autojunk
"popular" rule for `len(b) >= 200`), the recursive block collection of
`get_matching_blocks`, and `ratio = 2*M/T` (`1.0` when both empty). -/

/-- Indices `j` with `b[j] = c`, ascending (the `b2j` chains). -/
def occIdx (b : List Char) (c : Char) : List Nat :=
  (List.range b.length).filter (fun j => b.get? j = some c)

/-- The autojunk rule: for `len(b) >= 200`, characters occurring more than
`len(b) / 100 + 1` times are "popular" and removed from `b2j`. -/
def isPopular (b : List Char) (c : Char) : Bool :=
  b.length ≥ 200 ∧ b.countP (fun d => d = c) > b.length / 100 + 1

/-- `b2j` lookup with popular characters deleted. -/
def b2j (b : List Char) (c : Char) : List Nat :=
  if isPopular b c then [] else occIdx b c

/-- State of `find_longest_match`: best block start in `a`, start in `b`,
size. -/
structure FLM where
  besti : Nat
  bestj : Nat
  bestsize : Nat
deriving Repr, DecidableEq

/-- One row `i` of the `find_longest_match` dynamic programme: fold over the
`b2j` chain of `a[i]` restricted to `[blo, bhi)`, building the new `j2len`
and updating the best block (strict improvement only, preserving the
first-found tie-break of the CPython loop). -/
def flmRow (a : List Char) (bj : Char → List Nat) (blo bhi i : Nat)
    (j2len : Nat → Nat) (st : FLM) : (Nat → Nat) × FLM :=
  let js := (bj ((a.get? i).getD ' ')).filter (fun j => blo ≤ j ∧ j < bhi)
  js.foldl
    (fun acc j =>
      let nl := acc.1
      let st := acc.2
      let k := (if j = 0 then 0 else j2len (j - 1)) + 1
      let nl' := fun x => if x = j then k else nl x
      let st' := if k > st.bestsize then FLM.mk (i + 1 - k) (j + 1 - k) k
        else st
      (nl', st'))
    ((fun _ => 0), st)

/-- How far a block can be extended: the largest `e ≤ bound` such that the
`e` characters before/after the block agree pairwise (`pair t` gives the pair
of characters compared at distance `t + 1`). -/
def extendLen (pair : Nat → Option Char × Option Char)
    (bound : Nat) : Nat :=
  let ok := fun t => (pair t).1.isSome ∧ (pair t).1 = (pair t).2
  ((List.range bound).takeWhile (fun t => ok t)).length

/-- `find_longest_match(alo, ahi, blo, bhi)` with `isjunk = None`: the DP over
rows, then the (junk-free) extension of the best block on both sides. -/
def findLongestMatch (a b : List Char) (bj : Char → List Nat)
    (alo ahi blo bhi : Nat) : FLM :=
  let rows := (List.range ahi).drop alo
  let res := rows.foldl
    (fun acc i => flmRow a bj blo bhi i acc.1 acc.2)
    ((fun _ => 0), FLM.mk alo blo 0)
  let st := res.2
  let back := extendLen
    (fun t => ((a.get? (st.besti - 1 - t)), (b.get? (st.bestj - 1 - t))))
    (min (st.besti - alo) (st.bestj - blo))
  let st := FLM.mk (st.besti - back) (st.bestj - back) (st.bestsize + back)
  let fwd := extendLen
    (fun t => ((a.get? (st.besti + st.bestsize + t)),
               (b.get? (st.bestj + st.bestsize + t))))
    (min (ahi - (st.besti + st.bestsize)) (bhi - (st.bestj + st.bestsize)))
  FLM.mk st.besti st.bestj (st.bestsize + fwd)

/-- Total size of all matching blocks (the `M` of `ratio`): the recursive
split of `get_matching_blocks`. -/
def matchTotal (a b : List Char) (bj : Char → List Nat) :
    Nat → Nat → Nat → Nat → Nat → Nat
  | 0, _, _, _, _ => 0
  | fuel + 1, alo, ahi, blo, bhi =>
    let m := findLongestMatch a b bj alo ahi blo bhi
    if m.bestsize = 0 then 0
    else
      m.bestsize
        + matchTotal a b bj fuel alo m.besti blo m.bestj
        + matchTotal a b bj fuel (m.besti + m.bestsize) ahi
            (m.bestj + m.bestsize) bhi

/-- `SequenceMatcher(None, a, b).ratio()` as a rational: `2*M/T`, and `1.0`
when both sequences are empty. -/
def seqMatchScore (a b : String) : ℚ :=
  let la := a.data.length
  let lb := b.data.length
  if la + lb = 0 then 1
  else
    let m := matchTotal a.data b.data (b2j b.data) (la + lb + 1) 0 la 0 lb
    (2 * (m : ℚ)) / ((la : ℚ) + (lb : ℚ))

/-- `_similar` (backend/main.py): `0.0` on falsy arguments, else the
`SequenceMatcher` ratio. -/
def similar (a b : Option String) : ℚ :=
  match a, b with
  | some a, some b => if a = "" ∨ b = "" then 0 else seqMatchScore a b
  | _, _ => 0

/-- Python `round(x, 3)` on the rational value: round half to even at three
decimal places. -/
def round3 (x : ℚ) : ℚ :=
  let y := x * 1000
  let f := ⌊y⌋
  let r := y - (f : ℚ)
  let n : ℤ :=
    if r < 1 / 2 then f
    else if r > 1 / 2 then f + 1
    else if f % 2 = 0 then f else f + 1
  (n : ℚ) / 1000

/-! ## detect_duplicates and the /upload_dupcheck endpoint (backend/main.py) -/

/-- A row of the `documents` table (id, content hash; `hash_sha256` is
nullable). -/
structure DocRow where
  id : String
  hash : Option String
deriving Repr, DecidableEq

/-- The keys of a stored record's `fields` JSON read by the duplicate
detector (absent keys are `none`; rows whose JSON fails to parse behave as an
empty dict, i.e. all-`none`). -/
structure RecFields where
  vendor_norm : Option String
  invoice_number_norm : Option String
  total : Option ℚ
  invoice_date : Option String
deriving Repr, DecidableEq

/-- A row of the `records` table. -/
structure RecRow where
  id : String
  fields : RecFields
deriving Repr, DecidableEq

/-- The incoming `fields` dict handed to `detect_duplicates`: only the keys
it reads, typed as the detector expects them (`total` is `none` both when the
key is absent and when its value is not an `int`/`float`, matching the
`isinstance` guard; date values are strings, with the empty string falsy). -/
structure InFields where
  vendor : Option String
  invoice_number : Option String
  total : Option ℚ
  invoice_date : Option String
deriving Repr, DecidableEq

/-- One entry of a verdict's `matches` list. -/
structure DupMatch where
  mtype : String
  id : String
  similarity : Option ℚ
deriving Repr, DecidableEq

/-- A `DuplicateVerdict` payload as built by `detect_duplicates`. -/
structure DupVerdict where
  certainty : String
  reason : String
  matchesList : List DupMatch
deriving Repr, DecidableEq

/-- The "likely"-tier SQL predicate:
`lower(json_extract(fields,'$.vendor_norm')) = vend AND
 lower(json_extract(fields,'$.invoice_number_norm')) = invn`
(SQL `lower` is ASCII-only, and `NULL` compares false). -/
def likelyHit (v n : String) (r : RecRow) : Bool :=
  r.fields.vendor_norm.map pyLower = some v ∧
    r.fields.invoice_number_norm.map pyLower = some n

/-- The "possible"-tier vendor filter:
`lower(json_extract(fields,'$.vendor_norm')) = vend`. -/
def vendorHit (v : String) (r : RecRow) : Bool :=
  r.fields.vendor_norm.map pyLower = some v

/-- The qualification test of one candidate row in the "possible" tier:
similarity at least 0.90, or exact equality of normalized invoice numbers
(with truthy `invn`), or totals within 1.00 with equal (truthy) invoice
dates. -/
def possibleQualifies (invn : Option String) (total : Option ℚ)
    (invdate : Option String) (r : RecRow) : Bool :=
  let score := similar invn r.fields.invoice_number_norm
  let totalClose :=
    match total, r.fields.total with
    | some t, some u => decide (|t - u| ≤ 1)
    | _, _ => false
  let dateMatch :=
    match invdate, r.fields.invoice_date with
    | some d, some e => decide (d ≠ "" ∧ e ≠ "" ∧ d = e)
    | _, _ => false
  decide (score ≥ 9 / 10) ||
    (invn.isSome && decide (r.fields.invoice_number_norm = invn)) ||
    (totalClose && dateMatch)

/-- The suspect entry built for a qualifying row: record id plus the
similarity score rounded to three decimals. -/
def suspectOf (invn : Option String) (r : RecRow) : DupMatch :=
  DupMatch.mk "record" r.id (some (round3 (similar invn r.fields.invoice_number_norm)))

/-- All suspects of the "possible" tier, in table order: rows sharing the
normalized vendor that pass `possibleQualifies`. -/
def possibleSuspects (recs : List RecRow) (v : String) (invn : Option String)
    (total : Option ℚ) (invdate : Option String) : List DupMatch :=
  ((recs.filter (fun r => vendorHit v r)).filter
    (fun r => possibleQualifies invn total invdate r)).map
    (fun r => suspectOf invn r)

/-- `detect_duplicates` (backend/main.py): three tiers evaluated in order —
exact content-hash match over `documents`, same normalized vendor + invoice
number over `records`, then the fuzzy "possible" tier capped at the first
five suspects.  Returns `none` (Python `None`) when no tier fires. -/
def detect_duplicates (docs : List DocRow) (recs : List RecRow)
    (fileHash : String) (fields : InFields) : Option DupVerdict :=
  match docs.find? (fun d => d.hash = some fileHash) with
  | some d =>
    some (DupVerdict.mk "exact" "hash_sha256 matched an existing document"
      [DupMatch.mk "document" d.id none])
  | none =>
    let vend := norm_vendor fields.vendor
    let invn := norm_invoice_no fields.invoice_number
    let likelyRec :=
      match vend, invn with
      | some v, some n => recs.find? (fun r => likelyHit v n r)
      | _, _ => none
    match likelyRec with
    | some r =>
      some (DupVerdict.mk "likely" "Same vendor + invoice number found"
        [DupMatch.mk "record" r.id none])
    | none =>
      let suspects :=
        match vend with
        | some v => possibleSuspects recs v invn fields.total fields.invoice_date
        | none => []
      if suspects ≠ [] then
        some (DupVerdict.mk "possible" "Near-duplicate by vendor+invoice heuristics"
          (suspects.take 5))
      else none

/-- Outcome of the `/upload_dupcheck` endpoint: HTTP 409 on an exact hit,
otherwise a 200 response with optional notice and suspect verdict, carrying
the proposed (non-persisted) record. -/
inductive UploadOutcome where
  | conflict (existingId : Option String) (reason : String)
      (matchesList : List DupMatch)
  | ok (notice : Option String) (duplicateSuspect : Option DupVerdict)
      (proposedHash : String) (proposedFields : InFields)
      (proposedVendorNorm : Option String)
      (proposedInvoiceNumberNorm : Option String)
deriving Repr, DecidableEq

/-- `upload_dupcheck` (backend/main.py): hash the upload, run
`detect_duplicates`, raise 409 only for certainty "exact", otherwise answer
200 with a notice for "likely"/"possible" and the proposed record.  The
`vendor_norm`/`invoice_number_norm` keys the endpoint adds to `fields` are
not read by the detector, which re-normalizes from `vendor` and
`invoice_number`; they appear in the proposed record, carried here as the
last two components of `ok`. -/
def upload_dupcheck (docs : List DocRow) (recs : List RecRow)
    (fileHash : String) (fields : InFields) : UploadOutcome :=
  match detect_duplicates docs recs fileHash fields with
  | some v =>
    if v.certainty = "exact" then
      UploadOutcome.conflict (v.matchesList.head?.map (fun m => m.id)) v.reason
        v.matchesList
    else
      let notice :=
        if v.certainty = "likely" then
          some "This appears to be the same invoice (same vendor and invoice number)."
        else if v.certainty = "possible" then
          some "This looks similar to a previous invoice. Want to review the matches?"
        else none
      UploadOutcome.ok notice (some v) fileHash fields
        (norm_vendor fields.vendor) (norm_invoice_no fields.invoice_number)
  | none =>
    UploadOutcome.ok none none fileHash fields (norm_vendor fields.vendor)
      (norm_invoice_no fields.invoice_number)

/-! ## Dates: `datetime.strptime` for the four accepted formats, and the
pydantic v2 (`speedate`) lax coercion of strings to `datetime` -/

/-- A validated `datetime.date`. -/
structure PyDate where
  year : Nat
  month : Nat
  day : Nat
deriving Repr, DecidableEq

/-- Gregorian leap year. -/
def isLeap (y : Nat) : Bool :=
  (y % 4 = 0 ∧ y % 100 ≠ 0) ∨ y % 400 = 0

/-- Days in a month. -/
def daysInMonth (y m : Nat) : Nat :=
  if m = 2 then (if isLeap y then 29 else 28)
  else if m = 4 ∨ m = 6 ∨ m = 9 ∨ m = 11 then 30
  else 31

/-- The validity test of the `datetime.date` constructor. -/
def validDate (y m d : Nat) : Bool :=
  1 ≤ y ∧ y ≤ 9999 ∧ 1 ≤ m ∧ m ≤ 12 ∧ 1 ≤ d ∧ d ≤ daysInMonth y m

/-- Numeric value of a decimal digit character. -/
def digitVal (c : Char) : Nat :=
  c.toNat - '0'.toNat

/-- `strptime`'s `%m` regex `1[0-2]|0[1-9]|[1-9]`: the possible parses at the
head of the input, in regex alternation order. -/
def pMonth (cs : List Char) : List (Nat × List Char) :=
  let two :=
    match cs with
    | c1 :: c2 :: rest =>
      (if c1 = '1' ∧ (c2 = '0' ∨ c2 = '1' ∨ c2 = '2') then
        [(10 + digitVal c2, rest)] else []) ++
      (if c1 = '0' ∧ '1' ≤ c2 ∧ c2 ≤ '9' then [(digitVal c2, rest)] else [])
    | _ => []
  let one :=
    match cs with
    | c :: rest => if '1' ≤ c ∧ c ≤ '9' then [(digitVal c, rest)] else []
    | [] => []
  two ++ one

/-- `strptime`'s `%d` regex `3[01]|[12]\d|0[1-9]|[1-9]`. -/
def pDay (cs : List Char) : List (Nat × List Char) :=
  let two :=
    match cs with
    | c1 :: c2 :: rest =>
      (if c1 = '3' ∧ (c2 = '0' ∨ c2 = '1') then [(30 + digitVal c2, rest)]
        else []) ++
      (if (c1 = '1' ∨ c1 = '2') ∧ c2.isDigit then
        [(10 * digitVal c1 + digitVal c2, rest)] else []) ++
      (if c1 = '0' ∧ '1' ≤ c2 ∧ c2 ≤ '9' then [(digitVal c2, rest)] else [])
    | _ => []
  let one :=
    match cs with
    | c :: rest => if '1' ≤ c ∧ c ≤ '9' then [(digitVal c, rest)] else []
    | [] => []
  two ++ one

/-- Exactly `n` decimal digits. -/
def pDigits : Nat → List Char → Option (Nat × List Char)
  | 0, cs => some (0, cs)
  | n + 1, c :: cs =>
    if c.isDigit then
      (pDigits n cs).map (fun p => (digitVal c * 10 ^ n + p.1, p.2))
    else none
  | _ + 1, [] => none

/-- `strptime`'s `%Y`: exactly four digits. -/
def pYear4 (cs : List Char) : Option (Nat × List Char) :=
  pDigits 4 cs

/-- `strptime`'s `%y`: two digits, with the POSIX century rule
(00–68 → 2000s, 69–99 → 1900s). -/
def pYear2 (cs : List Char) : Option (Nat × List Char) :=
  (pDigits 2 cs).map (fun p => (if p.1 ≤ 68 then 2000 + p.1 else 1900 + p.1, p.2))

/-- A literal separator character. -/
def pLit (c : Char) : List Char → Option (List Char)
  | d :: rest => if d = c then some rest else none
  | [] => none

/-- `strptime(s, "%m<sep>%d<sep>(%Y|%y)")`: full-string match plus the
`datetime.date` validity check. -/
def strptimeMDY (sep : Char) (year2 : Bool) (cs : List Char) : Option PyDate :=
  (pMonth cs).findSome? (fun mp =>
    (pLit sep mp.2).bind (fun r2 =>
      (pDay r2).findSome? (fun dp =>
        (pLit sep dp.2).bind (fun r4 =>
          ((if year2 then pYear2 r4 else pYear4 r4).bind (fun yp =>
            if yp.2 = [] ∧ validDate yp.1 mp.1 dp.1 then
              some (PyDate.mk yp.1 mp.1 dp.1)
            else none))))))

/-- `strptime(s, "%Y<sep>%m<sep>%d")`. -/
def strptimeYMD (sep : Char) (cs : List Char) : Option PyDate :=
  (pYear4 cs).bind (fun yp =>
    (pLit sep yp.2).bind (fun r2 =>
      (pMonth r2).findSome? (fun mp =>
        (pLit sep mp.2).bind (fun r4 =>
          (pDay r4).findSome? (fun dp =>
            if dp.2 = [] ∧ validDate yp.1 mp.1 dp.1 then
              some (PyDate.mk yp.1 mp.1 dp.1)
            else none)))))

/-- The ordered format list of `_normalize_invoice_fields`:
`%m/%d/%Y`, `%m/%d/%y`, `%Y-%m-%d`, `%Y/%m/%d`; first success wins. -/
def tryDateFormats (s : String) : Option PyDate :=
  [strptimeMDY '/' false, strptimeMDY '/' true, strptimeYMD '-',
    strptimeYMD '/'].findSome? (fun f => f s.data)

/-- A `datetime.datetime` value. -/
structure PyDateTime where
  date : PyDate
  hour : Nat
  minute : Nat
  second : Nat
  microsecond : Nat
  tzOffsetMinutes : Option Int
deriving Repr, DecidableEq

/-- RFC-3339-ish string parsing of pydantic v2 / `speedate`:
`YYYY-MM-DD` with optional `[Tt ]HH:MM[:SS[.ffffff]]` and optional
timezone `Z`/`z`/`±HH:MM`/`±HHMM`. -/
def pRFC3339 (cs : List Char) : Option PyDateTime :=
  (pDigits 4 cs).bind (fun yp =>
    (pLit '-' yp.2).bind (fun r1 =>
      (pDigits 2 r1).bind (fun mp =>
        (pLit '-' mp.2).bind (fun r2 =>
          (pDigits 2 r2).bind (fun dp =>
            if ¬ validDate yp.1 mp.1 dp.1 then none
            else
              match dp.2 with
              | [] => some (PyDateTime.mk (PyDate.mk yp.1 mp.1 dp.1) 0 0 0 0 none)
              | sep :: r3 =>
                if sep = 'T' ∨ sep = 't' ∨ sep = ' ' then
                  (pDigits 2 r3).bind (fun hp =>
                    (pLit ':' hp.2).bind (fun r4 =>
                      (pDigits 2 r4).bind (fun minp =>
                        let afterSec :
                            Option ((Nat × Nat) × List Char) :=
                          match minp.2 with
                          | ':' :: r5 =>
                            (pDigits 2 r5).bind (fun sp =>
                              match sp.2 with
                              | '.' :: r6 =>
                                let frac := r6.takeWhile (fun c => c.isDigit)
                                let rest := r6.drop frac.length
                                if frac = [] then none
                                else
                                  let micro := (frac.take 6).foldl
                                    (fun acc c => acc * 10 + digitVal c) 0
                                  let micro := micro *
                                    10 ^ (6 - min frac.length 6)
                                  some ((sp.1, micro), rest)
                              | rest => some ((sp.1, 0), rest))
                          | rest => some ((0, 0), rest)
                        afterSec.bind (fun secp =>
                          let tz : Option (Option Int × List Char) :=
                            match secp.2 with
                            | [] => some (none, [])
                            | 'Z' :: r => some (some 0, r)
                            | 'z' :: r => some (some 0, r)
                            | '+' :: r =>
                              (pTzHM r).map (fun p => (some p.1, p.2))
                            | '-' :: r =>
                              (pTzHM r).map (fun p => (some (-p.1), p.2))
                            | _ => none
                          tz.bind (fun tzp =>
                            if tzp.2 = [] ∧ hp.1 ≤ 23 ∧ minp.1 ≤ 59 ∧
                                secp.1.1 ≤ 59 then
                              some (PyDateTime.mk (PyDate.mk yp.1 mp.1 dp.1)
                                hp.1 minp.1 secp.1.1 secp.1.2 tzp.1)
                            else none)))))
                else none)))))
where
  /-- `HH[:]MM` of a numeric timezone offset, as minutes. -/
  pTzHM (cs : List Char) : Option (Int × List Char) :=
    (pDigits 2 cs).bind (fun hp =>
      let afterColon := match hp.2 with
        | ':' :: r => r
        | r => r
      (pDigits 2 afterColon).bind (fun mp =>
        if hp.1 ≤ 23 ∧ mp.1 ≤ 59 then
          some (((hp.1 * 60 + mp.1 : Nat) : Int), mp.2)
        else none))

/-- Hinnant's civil-from-days: the Gregorian date of a day count relative to
1970-01-01, via floor division. -/
def civilFromDays (z : Int) : Int × Nat × Nat :=
  let z := z + 719468
  let era := Int.fdiv z 146097
  let doe := (Int.fmod z 146097).toNat
  let yoe := (doe - doe / 1460 + doe / 36524 - doe / 146096) / 365
  let y : Int := (yoe : Int) + era * 400
  let doy := doe - (365 * yoe + yoe / 4 - yoe / 100)
  let mp := (5 * doy + 2) / 153
  let d := doy - (153 * mp + 2) / 5 + 1
  let m := if mp < 10 then mp + 3 else mp - 9
  (y + (if m ≤ 2 then 1 else 0), m, d)

/-- `speedate`'s numeric-timestamp interpretation of a string/number: values
above the 2·10¹⁰ watershed are milliseconds; the result must land in the
supported year range. -/
def timestampToDatetime (q : ℚ) : Option PyDateTime :=
  let q := if 20000000000 < |q| then q / 1000 else q
  let secs : Int := ⌊q⌋
  let micro : Nat := (⌊(q - (secs : ℚ)) * 1000000⌋).toNat
  let days : Int := Int.fdiv secs 86400
  let rem : Nat := (Int.fmod secs 86400).toNat
  let c := civilFromDays days
  if 1 ≤ c.1 ∧ c.1 ≤ 9999 then
    some (PyDateTime.mk (PyDate.mk c.1.toNat c.2.1 c.2.2)
      (rem / 3600) (rem % 3600 / 60) (rem % 60) micro none)
  else none

/-- A numeric literal string (optional sign, digits, optional fraction), as
accepted by the timestamp fallback. -/
def pNumericString (cs : List Char) : Option ℚ :=
  let (neg, cs) := match cs with
    | '-' :: r => (true, r)
    | '+' :: r => (false, r)
    | r => (false, r)
  let intDigits := cs.takeWhile (fun c => c.isDigit)
  let rest := cs.drop intDigits.length
  if intDigits = [] then none
  else
    let intVal : Nat := intDigits.foldl (fun acc c => acc * 10 + digitVal c) 0
    let fracPart : Option ℚ :=
      match rest with
      | [] => some 0
      | '.' :: r =>
        let fd := r.takeWhile (fun c => c.isDigit)
        if r.drop fd.length = [] then
          some ((fd.foldl (fun acc c => acc * 10 + digitVal c) 0 : ℚ) /
            (10 ^ fd.length : ℚ))
        else none
      | _ => none
    fracPart.map (fun f =>
      let v : ℚ := (intVal : ℚ) + f
      if neg then -v else v)

/-- pydantic v2 lax coercion of a string to `datetime`: RFC-3339 parsing,
then the numeric-timestamp fallback. -/
def pydanticDatetimeOfString (s : String) : Option PyDateTime :=
  match pRFC3339 s.data with
  | some dt => some dt
  | none => (pNumericString s.data).bind timestampToDatetime

/-- Zero-padded decimal rendering. -/
def padNum (width n : Nat) : String :=
  let s := toString n
  String.mk (List.replicate (width - s.length) '0') ++ s

/-- `datetime.isoformat()`. -/
def isoformatDatetime (dt : PyDateTime) : String :=
  let base := padNum 4 dt.date.year ++ "-" ++ padNum 2 dt.date.month ++ "-" ++
    padNum 2 dt.date.day ++ "T" ++ padNum 2 dt.hour ++ ":" ++
    padNum 2 dt.minute ++ ":" ++ padNum 2 dt.second
  let base := if dt.microsecond ≠ 0 then base ++ "." ++ padNum 6 dt.microsecond
    else base
  match dt.tzOffsetMinutes with
  | none => base
  | some off =>
    let sign := if off < 0 then "-" else "+"
    let a := off.natAbs
    base ++ sign ++ padNum 2 (a / 60) ++ ":" ++ padNum 2 (a % 60)

/-! ## Field normalization (`business_hub/ai.py` + pydantic models) -/

/-- A raw line-item dict from the extraction payload, restricted to the
declared `LineItem` keys (pydantic v2 ignores extra keys by default, and the
schema sent to the model forbids them). -/
structure RawLineItem where
  qty : Option ℚ
  description : Option String
  unit_price : Option ℚ
  amount : Option ℚ
deriving Repr, DecidableEq

/-- A validated `LineItem` (description is required). -/
structure LineItem where
  qty : Option ℚ
  description : String
  unit_price : Option ℚ
  amount : Option ℚ
deriving Repr, DecidableEq

/-- The raw invoice payload handed to `_normalize_invoice_fields`: the keys
of the invoice JSON schema, each either absent (`none`) or carrying a value
of the schema's declared type (dates as strings, as the model returns
them). -/
structure RawInvoice where
  vendor : Option String
  invoice_number : Option String
  invoice_date : Option String
  due_date : Option String
  currency : Option String
  total : Option ℚ
  tax : Option ℚ
  payment_terms : Option String
  line_items : List RawLineItem
deriving Repr, DecidableEq

/-- The normalized invoice fields as stored: after pydantic validation,
`.dict(exclude_none=True)` and the ISO re-serialization of date values. -/
structure NormInvoice where
  vendor : String
  invoice_number : String
  invoice_date : Option String
  due_date : Option String
  currency : Option String
  total : ℚ
  tax : Option ℚ
  payment_terms : Option String
  line_items : List LineItem
deriving Repr, DecidableEq

/-- `LineItem(**item)`: pydantic requires `description`. -/
def validateLineItem (li : RawLineItem) : Except String LineItem :=
  match li.description with
  | some d => Except.ok (LineItem.mk li.qty d li.unit_price li.amount)
  | none => Except.error "LineItem: description: Field required"

/-- The value sitting in a date key after the parsing loop of
`_normalize_invoice_fields`: nothing, the original string, or a parsed
`datetime.date` object. -/
inductive DateSlot where
  | absent
  | str (s : String)
  | pydate (d : PyDate)
deriving Repr, DecidableEq

/-- The date-parsing loop body for one key: non-empty strings (after strip)
are tried against the four formats, the first success replacing the string by
a `datetime.date`; everything else is left untouched. -/
def applyDateLoop : Option String → DateSlot
  | none => DateSlot.absent
  | some s =>
    if pyStrip s = "" then DateSlot.str s
    else
      match tryDateFormats (pyStrip s) with
      | some d => DateSlot.pydate d
      | none => DateSlot.str s

/-- pydantic v2 validation of an `Optional[datetime]` field: `None` passes,
plain `datetime.date` objects are rejected (`datetime_type` error), strings
go through the lax `speedate` coercion. -/
def validateDatetimeField : DateSlot → Except String (Option PyDateTime)
  | DateSlot.absent => Except.ok none
  | DateSlot.pydate _ =>
    Except.error "Input should be a valid datetime [type=datetime_type]"
  | DateSlot.str s =>
    match pydanticDatetimeOfString s with
    | some dt => Except.ok (some dt)
    | none =>
      Except.error ("Input should be a valid datetime, unable to parse: " ++ s)

/-- The default invoice number synthesized from the document id:
`INV-` plus the last six characters, or `INV-UNKNOWN` for a falsy id. -/
def synthInvoiceNumber (fallbackId : String) : String :=
  if fallbackId ≠ "" then
    "INV-" ++ String.mk (fallbackId.data.drop (fallbackId.data.length - 6))
  else "INV-UNKNOWN"

/-- `_normalize_invoice_fields` (business_hub/ai.py): apply the
`setdefault` defaults, validate line items, run the date-parsing loop, then
validate through `InvoiceFields` (pydantic v2) and re-serialize surviving
date objects to ISO strings.  Raised validation errors are `Except.error`. -/
def normalize_invoice_fields (raw : RawInvoice) (fallbackId : String) :
    Except String NormInvoice := do
  let vendor := raw.vendor.getD "Unknown Vendor"
  let invoiceNumber := raw.invoice_number.getD (synthInvoiceNumber fallbackId)
  let total := raw.total.getD 0
  let items ← raw.line_items.mapM validateLineItem
  let invDate ← validateDatetimeField (applyDateLoop raw.invoice_date)
  let dueDate ← validateDatetimeField (applyDateLoop raw.due_date)
  pure (NormInvoice.mk vendor invoiceNumber
    (invDate.map isoformatDatetime) (dueDate.map isoformatDatetime)
    raw.currency total raw.tax raw.payment_terms items)

/-- The raw receipt payload (receipt JSON schema keys). -/
structure RawReceipt where
  merchant : Option String
  datetime : Option String
  subtotal : Option ℚ
  tip : Option ℚ
  total : Option ℚ
  category : Option String
deriving Repr, DecidableEq

/-- The normalized receipt fields: `_normalize_receipt_fields` performs no
ISO re-serialization, so a coerced datetime value stays a datetime object. -/
structure NormReceipt where
  merchant : String
  datetime : Option PyDateTime
  subtotal : Option ℚ
  tip : Option ℚ
  total : ℚ
  category : Option String
deriving Repr, DecidableEq

/-- `_normalize_receipt_fields` (business_hub/ai.py): `setdefault` defaults
for merchant and total, then `ReceiptFields` validation (the raw `datetime`
string goes straight to the pydantic coercion — there is no strptime loop on
the receipt path). -/
def normalize_receipt_fields (raw : RawReceipt) : Except String NormReceipt := do
  let merchant := raw.merchant.getD "Unknown Merchant"
  let total := raw.total.getD 0
  let dtSlot := match raw.datetime with
    | none => DateSlot.absent
    | some s => DateSlot.str s
  let dt ← validateDatetimeField dtSlot
  pure (NormReceipt.mk merchant dt raw.subtotal raw.tip total raw.category)

/-! ## Vision model gateway: `_chat_json_with_images` and its fallback
policy (business_hub/ai.py) -/

/-- The configured models (env defaults): classifier and extraction models
default to `o3`; the fallback is fixed. -/
def CLASSIFIER_MODEL : String := "o3"

/-- The extraction model (env default). -/
def EXTRACTION_MODEL : String := "o3"

/-- The fixed fallback model. -/
def FALLBACK_MODEL : String := "gpt-4o-mini"

/-- Possible outcomes of one upstream chat-completions call (`_once`): a
parsed JSON payload, a `BadRequestError`, any other OpenAI API fault
(`APIError`/`APIConnectionError`/`RateLimitError`/`AuthenticationError`),
or syntactically invalid JSON content (`json.JSONDecodeError`). -/
inductive ApiResult (α : Type) where
  | ok (payload : α)
  | badRequest (msg : String) (body : Option String)
  | apiFault (msg : String) (body : Option String)
  | nonJson
deriving Repr, DecidableEq

/-- The exceptions `_chat_json_with_images` can raise: the unified
`RuntimeError` wrapping an API fault (carrying the requested model name,
upstream message, and body), the invalid-JSON `RuntimeError`, or a pydantic
validation error downstream. -/
inductive PyError where
  | gatewayError (model : String) (msg : String) (body : Option String)
  | invalidJson
  | validationError (msg : String)
deriving Repr, DecidableEq

/-- `_chat_json_with_images` (business_hub/ai.py): call the requested model
once; on `BadRequestError` retry once against `FALLBACK_MODEL` (unless the
requested model already is the fallback); wrap any API fault that escapes in
a single `RuntimeError` naming the *requested* model; map non-JSON output to
the invalid-JSON error.  The second component lists the models actually
invoked, in order. -/
def chat_json_with_images {α : Type} (backend : String → ApiResult α)
    (model : String) : Except PyError α × List String :=
  match backend model with
  | ApiResult.ok p => (Except.ok p, [model])
  | ApiResult.nonJson => (Except.error PyError.invalidJson, [model])
  | ApiResult.apiFault m b =>
    (Except.error (PyError.gatewayError model m b), [model])
  | ApiResult.badRequest m b =>
    if model ≠ FALLBACK_MODEL then
      match backend FALLBACK_MODEL with
      | ApiResult.ok p => (Except.ok p, [model, FALLBACK_MODEL])
      | ApiResult.nonJson =>
        (Except.error PyError.invalidJson, [model, FALLBACK_MODEL])
      | ApiResult.badRequest m' b' =>
        (Except.error (PyError.gatewayError model m' b'), [model, FALLBACK_MODEL])
      | ApiResult.apiFault m' b' =>
        (Except.error (PyError.gatewayError model m' b'), [model, FALLBACK_MODEL])
    else (Except.error (PyError.gatewayError model m b), [model])

/-- The classifier JSON payload, restricted to the keys the code reads
(`type`, `confidence`, `direction`); `confidence` is a JSON number when
present (`float(...)` of it is the identity on the rational model). -/
structure ClassifierPayload where
  ptype : Option String
  confidence : Option ℚ
  direction : Option String
deriving Repr, DecidableEq

/-- `DOC_TYPE_MAP`-ped stored document types. -/
inductive DocumentType where
  | INVOICE
  | RECEIPT
  | PURCHASE_ORDER
  | EMAIL
  | OTHER
deriving Repr, DecidableEq

/-- `DOC_TYPE_MAP.get(kind, DocumentType.OTHER)`. -/
def docTypeMap (kind : String) : DocumentType :=
  if kind = "invoice_ar" then DocumentType.INVOICE
  else if kind = "vendor_bill_ap" then DocumentType.INVOICE
  else if kind = "receipt" then DocumentType.RECEIPT
  else if kind = "estimate" then DocumentType.PURCHASE_ORDER
  else if kind = "purchase_order" then DocumentType.PURCHASE_ORDER
  else if kind = "email" then DocumentType.EMAIL
  else if kind = "shipping_record" then DocumentType.OTHER
  else DocumentType.OTHER

/-- Classifier result metadata (`{"payload": payload, "model": ...}`). -/
structure ClassifierMeta where
  payload : ClassifierPayload
  model : String
deriving Repr, DecidableEq

/-- `_classify_document_vision`: one gateway call with the classifier model;
`type` defaults to `"other"`, `confidence` to `0.0` (`float` of the payload
value otherwise, with no clamping). -/
def classify_document_vision (backend : String → ApiResult ClassifierPayload) :
    Except PyError (DocumentType × ℚ × ClassifierMeta) :=
  match (chat_json_with_images backend CLASSIFIER_MODEL).1 with
  | Except.error e => Except.error e
  | Except.ok payload =>
    Except.ok (docTypeMap (payload.ptype.getD "other"),
      payload.confidence.getD 0,
      ClassifierMeta.mk payload CLASSIFIER_MODEL)

/-- Extraction-call metadata (`{"model": EXTRACTION_MODEL, "payload": ...}`):
note the model recorded is the *configured* extraction model, regardless of
whether the gateway fell back. -/
structure ExtractMeta where
  model : String
deriving Repr, DecidableEq

/-- `_extract_invoice_fields_vision`: one gateway call with the extraction
model; the metadata always carries `EXTRACTION_MODEL`. -/
def extract_invoice_fields_vision (backend : String → ApiResult RawInvoice) :
    Except PyError (RawInvoice × ExtractMeta) :=
  match (chat_json_with_images backend EXTRACTION_MODEL).1 with
  | Except.error e => Except.error e
  | Except.ok payload => Except.ok (payload, ExtractMeta.mk EXTRACTION_MODEL)

/-- `_extract_receipt_fields_vision`. -/
def extract_receipt_fields_vision (backend : String → ApiResult RawReceipt) :
    Except PyError (RawReceipt × ExtractMeta) :=
  match (chat_json_with_images backend EXTRACTION_MODEL).1 with
  | Except.error e => Except.error e
  | Except.ok payload => Except.ok (payload, ExtractMeta.mk EXTRACTION_MODEL)

/-! ## run_extraction (business_hub/ai.py) -/

/-- The upstream environment of one `run_extraction` call: the response each
schema-specific gateway call would receive per model name.  The generic
summary payload is modelled by its `summary` key. -/
structure VisionEnv where
  classifierCall : String → ApiResult ClassifierPayload
  invoiceCall : String → ApiResult RawInvoice
  receiptCall : String → ApiResult RawReceipt
  summaryCall : String → ApiResult (Option String)

/-- The `fields` dict assembled by `run_extraction`, as a tagged variant:
invoice fields, receipt fields, or the generic/text summary, each together
with the optional `direction` key added afterwards. -/
inductive ExtFields where
  | invoice (f : NormInvoice) (direction : Option String)
  | receipt (f : NormReceipt) (direction : Option String)
  | summary (s : String) (direction : Option String)
deriving Repr, DecidableEq

/-- The persisted `Extraction` as far as the pipeline logic determines it
(ids and timestamps are generated; the `raw_json` diagnostic payload and the
best-effort suggestion string are UI sugar no claim concerns and are
omitted). -/
structure ExtractionOut where
  model : String
  schemaName : String
  fields : ExtFields
  confidence : ℚ
  docType : DocumentType
deriving Repr, DecidableEq

/-- The truthiness filter applied to `direction` before it is copied into
`fields` (`if ... and direction`). -/
def truthyDirection (d : Option String) : Option String :=
  match d with
  | some s => if s = "" then none else some s
  | none => none

/-- `run_extraction` (business_hub/ai.py), for a document with `hasImages`
pages rendered (render failures degrade to the text-summary path): classify,
dispatch to the schema-specific extractor, normalize, and assemble the
extraction record.  Any gateway or validation exception propagates. -/
def run_extraction (env : VisionEnv) (docId : String) (hasImages : Bool)
    (text : String) : Except PyError ExtractionOut :=
  if hasImages then
    match classify_document_vision env.classifierCall with
    | Except.error e => Except.error e
    | Except.ok (docType, confidence, classifierMeta) =>
      let direction := classifierMeta.payload.direction
      match docType with
      | DocumentType.INVOICE =>
        match extract_invoice_fields_vision env.invoiceCall with
        | Except.error e => Except.error e
        | Except.ok (payload, meta) =>
          match normalize_invoice_fields payload docId with
          | Except.error msg => Except.error (PyError.validationError msg)
          | Except.ok f =>
            Except.ok (ExtractionOut.mk meta.model "invoice_v1"
              (ExtFields.invoice f (truthyDirection direction)) confidence
              docType)
      | DocumentType.RECEIPT =>
        match extract_receipt_fields_vision env.receiptCall with
        | Except.error e => Except.error e
        | Except.ok (payload, meta) =>
          match normalize_receipt_fields payload with
          | Except.error msg => Except.error (PyError.validationError msg)
          | Except.ok f =>
            Except.ok (ExtractionOut.mk meta.model "receipt_v1"
              (ExtFields.receipt f (truthyDirection direction)) confidence
              docType)
      | _ =>
        match (chat_json_with_images env.summaryCall EXTRACTION_MODEL).1 with
        | Except.error e => Except.error e
        | Except.ok payload =>
          Except.ok (ExtractionOut.mk EXTRACTION_MODEL "generic_v1"
            (ExtFields.summary (payload.getD "")
              (truthyDirection direction)) confidence docType)
  else
    Except.ok (ExtractionOut.mk EXTRACTION_MODEL "generic_v1"
      (ExtFields.summary (text.take 500) none) 0 DocumentType.OTHER)

/-! ## Derived forms and concrete scenario inputs used by the theorems -/

/-- The value `detect_duplicates` computes once the exact and likely tiers
have both missed: the fuzzy tier's verdict, or `none`. -/
def possibleTierResult (recs : List RecRow) (vend invn : Option String)
    (total : Option ℚ) (invdate : Option String) : Option DupVerdict :=
  let suspects :=
    match vend with
    | some v => possibleSuspects recs v invn total invdate
    | none => []
  if suspects ≠ [] then
    some (DupVerdict.mk "possible" "Near-duplicate by vendor+invoice heuristics"
      (suspects.take 5))
  else none

/-- An upload with no reusable field data. -/
def noFields : InFields := InFields.mk none none none none

/-- A raw invoice payload with only the required schema keys. -/
def invRawBase : RawInvoice :=
  RawInvoice.mk (some "V") (some "1") none none none (some 10) none none []

/-- A prior record of vendor "Acme Corp" / invoice number "INV-1024", as its
normalized fields would be stored. -/
def acmeRec : RecRow :=
  RecRow.mk "rec_1" (RecFields.mk (some "acme") (some "inv1024") none none)

/-- One of the five prior records of the capping scenario: same vendor, an
unrelated invoice number, but matching total and invoice date. -/
def closeTotalRec (n : String) : RecRow :=
  RecRow.mk n (RecFields.mk (some "acme") (some "x1") (some 100) (some "2024-01-05"))

/-- The six-record store of the capping scenario: five total/date hits in
table order, then a sixth record whose invoice number is nearly identical to
the incoming one. -/
def capRecs : List RecRow :=
  [closeTotalRec "r1", closeTotalRec "r2", closeTotalRec "r3",
   closeTotalRec "r4", closeTotalRec "r5",
   RecRow.mk "r6" (RecFields.mk (some "acme") (some "abc1234") (some 500) none)]

/-- The incoming fields of the capping scenario. -/
def capFields : InFields :=
  InFields.mk (some "Acme") (some "ABC-123") (some 100) (some "2024-01-05")

/-- A gateway backend whose primary model rejects the request and whose
fallback answers with the empty invoice payload. -/
def fallbackBackend : String → ApiResult RawInvoice := fun m =>
  if m = "o3" then ApiResult.badRequest "model rejected the request" none
  else ApiResult.ok invRawBase

/-- A vision environment whose classifier reports type "other" with an
out-of-range confidence of 2.0, and whose summary call succeeds. -/
def overconfidentEnv : VisionEnv :=
  VisionEnv.mk (fun _ => ApiResult.ok (ClassifierPayload.mk (some "other") (some 2) none))
    (fun _ => ApiResult.ok invRawBase)
    (fun _ => ApiResult.ok (RawReceipt.mk none none none none none none))
    (fun _ => ApiResult.ok (some "a summary"))

/-- A vision environment like `overconfidentEnv` but with an in-range
confidence of 1/2. -/
def calmEnv : VisionEnv :=
  VisionEnv.mk (fun _ => ApiResult.ok (ClassifierPayload.mk (some "other") (some (1 / 2)) none))
    (fun _ => ApiResult.ok invRawBase)
    (fun _ => ApiResult.ok (RawReceipt.mk none none none none none none))
    (fun _ => ApiResult.ok (some "a summary"))

end SFC

namespace SFC

/-! # Theorems -/

/-- C4 counterexample: `_norm_invoice_no` strips leading zeros only at the
start of the separator-stripped string, so "INV-1024" normalizes to
"inv1024" and "INV-01024" to "inv01024" — not to "1024" as claimed — and the
`SequenceMatcher` ratio between the two normalized numbers is 14/15, not
1.0. -/
theorem invoice_no_normalization_counterexample :
    norm_invoice_no (some "INV-1024") = some "inv1024" ∧
    norm_invoice_no (some "INV-01024") = some "inv01024" ∧
    norm_invoice_no (some "INV-1024") ≠ some "1024" ∧
    similar (some "inv01024") (some "inv1024") = 14 / 15 ∧
    (14 : ℚ) / 15 ≠ 1 := by
  refine ⟨by decide, by decide, by decide, by decide, by norm_num⟩

/-- C4 (amended): vendor normalization maps both "Acme Corp" and "Acme" to
"acme"; the invoice numbers normalize to "inv1024" and "inv01024", whose
similarity ratio 14/15 clears the 0.90 bar, so the scenario's verdict is
"possible" (similarity rounded to 0.933), not "none". -/
theorem acme_scenario_verdict_possible :
    norm_vendor (some "Acme Corp") = some "acme" ∧
    norm_vendor (some "Acme") = some "acme" ∧
    norm_invoice_no (some "INV-1024") = some "inv1024" ∧
    norm_invoice_no (some "INV-01024") = some "inv01024" ∧
    similar (some "inv01024") (some "inv1024") ≥ 9 / 10 ∧
    detect_duplicates [] [acmeRec] "H2"
        (InFields.mk (some "Acme") (some "INV-01024") none none) =
      some (DupVerdict.mk "possible" "Near-duplicate by vendor+invoice heuristics"
        [DupMatch.mk "record" "rec_1" (some (933 / 1000))]) := by
  refine ⟨by decide, by decide, by decide, by decide, by decide, by decide⟩

/-- C6: the date-parsing loop does parse "01/05/2024", "2024-01-05" and
"2024/01/05" (each to the calendar date 2024-01-05, as a `datetime.date`
object), but `InvoiceFields` types the field as `datetime` and pydantic
rejects plain `date` objects, so normalization raises a validation error on
all three inputs instead of storing "2024-01-05". -/
theorem parsed_dates_rejected_by_schema :
    applyDateLoop (some "01/05/2024") = DateSlot.pydate (PyDate.mk 2024 1 5) ∧
    applyDateLoop (some "2024-01-05") = DateSlot.pydate (PyDate.mk 2024 1 5) ∧
    applyDateLoop (some "2024/01/05") = DateSlot.pydate (PyDate.mk 2024 1 5) ∧
    (normalize_invoice_fields
      (RawInvoice.mk (some "V") (some "1") (some "01/05/2024") none none
        (some 10) none none []) "doc").isOk = false ∧
    (normalize_invoice_fields
      (RawInvoice.mk (some "V") (some "1") (some "2024-01-05") none none
        (some 10) none none []) "doc").isOk = false ∧
    (normalize_invoice_fields
      (RawInvoice.mk (some "V") (some "1") (some "2024/01/05") none none
        (some 10) none none []) "doc").isOk = false := by
  refine ⟨by decide, by decide, by decide, by decide, by decide, by decide⟩

/-- C2 counterexample: on an input matched by no tier, `detect_duplicates`
returns Python `None` — no `DuplicateVerdict` at all, in particular none
with certainty "none". -/
theorem no_match_returns_python_none :
    detect_duplicates [] [] "h0" noFields = none := by decide

/-- C2 (amended): when the content hash matches no stored document, no prior
record matches the likely tier and the fuzzy tier produces no suspect, the
duplicate check returns `None` (not a verdict of certainty "none"), and the
upload endpoint answers 200 with no notice and the proposed record —
persistence is not blocked. -/
theorem no_match_none_and_upload_proceeds (docs : List DocRow)
    (recs : List RecRow) (h : String) (fields : InFields)
    (hd : ∀ d ∈ docs, d.hash ≠ some h)
    (hl : ∀ v n, norm_vendor fields.vendor = some v →
      norm_invoice_no fields.invoice_number = some n →
      ∀ r ∈ recs, ¬ likelyHit v n r)
    (hp : ∀ v, norm_vendor fields.vendor = some v →
      possibleSuspects recs v (norm_invoice_no fields.invoice_number)
        fields.total fields.invoice_date = []) :
    detect_duplicates docs recs h fields = none ∧
    upload_dupcheck docs recs h fields = UploadOutcome.ok none none h fields
      (norm_vendor fields.vendor) (norm_invoice_no fields.invoice_number) := by
  have hfind : docs.find? (fun d => d.hash = some h) = none := by
    rw [List.find?_eq_none]
    intro d hmem
    simpa using hd d hmem
  have hdet : detect_duplicates docs recs h fields = none := by
    unfold detect_duplicates
    rw [hfind]
    rcases hv : norm_vendor fields.vendor with _ | v
    · simp
    · have hs := hp v hv
      rcases hn : norm_invoice_no fields.invoice_number with _ | n
      · rw [hn] at hs
        simp [hs]
      · rw [hn] at hs
        have hlf : recs.find? (fun r => likelyHit v n r) = none := by
          rw [List.find?_eq_none]
          intro r hmem
          simpa using hl v n hv hn r hmem
        simp [hlf, hs]
  exact ⟨hdet, by simp [upload_dupcheck, hdet]⟩

/-- C2 witness. -/
theorem no_match_none_and_upload_proceeds_witness :
    detect_duplicates [] [] "h1" noFields = none ∧
    upload_dupcheck [] [] "h1" noFields = UploadOutcome.ok none none "h1"
      noFields (norm_vendor noFields.vendor)
      (norm_invoice_no noFields.invoice_number) :=
  no_match_none_and_upload_proceeds [] [] "h1" noFields (by simp)
    (by intro v n hv hn r hr; simp at hr) (by decide)

/-- C1: the three tiers are evaluated in order with short-circuiting — a
stored document with the same content hash yields an "exact" verdict naming
that document whatever the fields are (the fields are not consulted); failing
that, a prior record matching both normalized vendor and normalized invoice
number yields a "likely" verdict naming that record; and only failing both is
the fuzzy "possible" tier evaluated. -/
theorem detect_duplicates_tier_order (docs : List DocRow) (recs : List RecRow)
    (h : String) (fields : InFields) :
    ((∃ d ∈ docs, d.hash = some h) →
      ∃ d ∈ docs, d.hash = some h ∧
        ∀ fields' : InFields, detect_duplicates docs recs h fields' =
          some (DupVerdict.mk "exact" "hash_sha256 matched an existing document"
            [DupMatch.mk "document" d.id none])) ∧
    ((∀ d ∈ docs, d.hash ≠ some h) →
      ∀ v n, norm_vendor fields.vendor = some v →
        norm_invoice_no fields.invoice_number = some n →
        (∃ r ∈ recs, likelyHit v n r) →
        ∃ r ∈ recs, likelyHit v n r ∧
          detect_duplicates docs recs h fields =
            some (DupVerdict.mk "likely" "Same vendor + invoice number found"
              [DupMatch.mk "record" r.id none])) ∧
    ((∀ d ∈ docs, d.hash ≠ some h) →
      (∀ v n, norm_vendor fields.vendor = some v →
        norm_invoice_no fields.invoice_number = some n →
        ∀ r ∈ recs, ¬ likelyHit v n r) →
      detect_duplicates docs recs h fields =
        possibleTierResult recs (norm_vendor fields.vendor)
          (norm_invoice_no fields.invoice_number) fields.total
          fields.invoice_date) := by
  refine ⟨?_, ?_, ?_⟩
  · rintro ⟨d, hd, hh⟩
    have hsome : (docs.find? (fun x => x.hash = some h)).isSome :=
      List.find?_isSome.mpr ⟨d, hd, by simp [hh]⟩
    rcases hfind : docs.find? (fun x => x.hash = some h) with _ | d0
    · rw [hfind] at hsome
      simp at hsome
    · refine ⟨d0, List.mem_of_find?_eq_some hfind,
        by simpa using List.find?_some hfind, ?_⟩
      intro fields'
      unfold detect_duplicates
      rw [hfind]
  · intro hd v n hv hn hex
    have hfind : docs.find? (fun x => x.hash = some h) = none := by
      rw [List.find?_eq_none]
      intro x hmem
      simpa using hd x hmem
    obtain ⟨r, hr, hhit⟩ := hex
    have hsome : (recs.find? (fun x => likelyHit v n x)).isSome :=
      List.find?_isSome.mpr ⟨r, hr, hhit⟩
    rcases hlf : recs.find? (fun x => likelyHit v n x) with _ | r0
    · rw [hlf] at hsome
      simp at hsome
    · refine ⟨r0, List.mem_of_find?_eq_some hlf, List.find?_some hlf, ?_⟩
      unfold detect_duplicates
      rw [hfind]
      simp only [hv, hn, hlf]
  · intro hd hl
    have hfind : docs.find? (fun x => x.hash = some h) = none := by
      rw [List.find?_eq_none]
      intro x hmem
      simpa using hd x hmem
    unfold detect_duplicates possibleTierResult
    rw [hfind]
    rcases hv : norm_vendor fields.vendor with _ | v
    · simp
    · rcases hn : norm_invoice_no fields.invoice_number with _ | n
      · simp
      · have hlf : recs.find? (fun r => likelyHit v n r) = none := by
          rw [List.find?_eq_none]
          intro r hmem
          simpa using hl v n hv hn r hmem
        simp [hlf]

/-- C1 witness: the exact tier on a stored hash `H1`, and the likely tier on
a prior record with `vendor_norm = "acme"`, `invoice_number_norm = "1023"`. -/
theorem detect_duplicates_tier_order_witness :
    detect_duplicates [DocRow.mk "doc_1" (some "H1")] [] "H1" noFields =
      some (DupVerdict.mk "exact" "hash_sha256 matched an existing document"
        [DupMatch.mk "document" "doc_1" none]) ∧
    detect_duplicates []
      [RecRow.mk "rec_9" (RecFields.mk (some "acme") (some "1023") none none)]
      "H9" (InFields.mk (some "Acme") (some "1023") none none) =
      some (DupVerdict.mk "likely" "Same vendor + invoice number found"
        [DupMatch.mk "record" "rec_9" none]) := by
  constructor
  · obtain ⟨d, hd, hh, heq⟩ :=
      (detect_duplicates_tier_order [DocRow.mk "doc_1" (some "H1")] [] "H1"
        noFields).1 ⟨DocRow.mk "doc_1" (some "H1"), by simp, by simp⟩
    have hd1 : d = DocRow.mk "doc_1" (some "H1") := by simpa using hd
    rw [hd1] at heq
    exact heq noFields
  · obtain ⟨r, hr, hhit, heq⟩ :=
      (detect_duplicates_tier_order []
        [RecRow.mk "rec_9" (RecFields.mk (some "acme") (some "1023") none
          none)] "H9"
        (InFields.mk (some "Acme") (some "1023") none none)).2.1 (by simp)
        "acme" "1023" (by decide) (by decide)
        ⟨RecRow.mk "rec_9" (RecFields.mk (some "acme") (some "1023") none
          none), by simp, by decide⟩
    have hr1 : r = RecRow.mk "rec_9" (RecFields.mk (some "acme") (some "1023")
        none none) := by simpa using hr
    rw [hr1] at heq
    exact heq

/-- C10: the normalization helpers never return the empty string — falsy or
fully-normalized-away inputs give `None` — and a document whose vendor
normalizes to `None` skips both the likely and possible tiers, so it can only
ever be flagged as an exact (hash) duplicate. -/
theorem norm_helpers_never_empty (s : Option String) (docs : List DocRow)
    (recs : List RecRow) (h : String) (fields : InFields) :
    norm_vendor s ≠ some "" ∧ norm_invoice_no s ≠ some "" ∧
    norm_vendor none = none ∧ norm_invoice_no none = none ∧
    norm_vendor (some "") = none ∧ norm_invoice_no (some "") = none ∧
    norm_vendor (some "LLC Inc") = none ∧
    norm_invoice_no (some "0-0.") = none ∧
    (norm_vendor fields.vendor = none →
      (∀ vd, detect_duplicates docs recs h fields = some vd →
        vd.certainty = "exact") ∧
      (detect_duplicates docs recs h fields = none ∨
        ∃ d ∈ docs, d.hash = some h ∧
          detect_duplicates docs recs h fields =
            some (DupVerdict.mk "exact" "hash_sha256 matched an existing document"
              [DupMatch.mk "document" d.id none]))) := by
  refine ⟨?_, ?_, by decide, by decide, by decide, by decide, by decide,
    by decide, ?_⟩
  · cases s with
    | none => simp [norm_vendor]
    | some str =>
      simp only [norm_vendor]
      split
      · simp
      · split
        · simp
        · rename_i hne
          simpa using hne
  · cases s with
    | none => simp [norm_invoice_no]
    | some str =>
      simp only [norm_invoice_no]
      split
      · simp
      · split
        · simp
        · rename_i hne
          simpa using hne
  · intro hv
    constructor
    · intro vd hvd
      rcases hfind : docs.find? (fun x => x.hash = some h) with _ | d0
      · unfold detect_duplicates at hvd
        rw [hfind] at hvd
        simp only [hv] at hvd
        simp at hvd
      · unfold detect_duplicates at hvd
        rw [hfind] at hvd
        cases hvd
        rfl
    · rcases hfind : docs.find? (fun x => x.hash = some h) with _ | d0
      · left
        unfold detect_duplicates
        rw [hfind]
        simp only [hv]
        simp
      · right
        refine ⟨d0, List.mem_of_find?_eq_some hfind,
          by simpa using List.find?_some hfind, ?_⟩
        unfold detect_duplicates
        rw [hfind]

/-- C10 witness. -/
theorem norm_helpers_never_empty_witness :
    (∀ vd, detect_duplicates [] [] "h0" noFields = some vd →
      vd.certainty = "exact") ∧
    (detect_duplicates [] [] "h0" noFields = none ∨
      ∃ d ∈ ([] : List DocRow), d.hash = some "h0" ∧
        detect_duplicates [] [] "h0" noFields =
          some (DupVerdict.mk "exact" "hash_sha256 matched an existing document"
            [DupMatch.mk "document" d.id none])) :=
  ((norm_helpers_never_empty (some "LLC Inc") [] [] "h0"
    noFields).2.2.2.2.2.2.2.2) (by decide)

/-- C3 (amended): a "possible" verdict carries at most five matches — the
*first* five qualifying suspects in prior-record (table) order, not the five
highest-confidence ones — each naming a prior record sharing the normalized
vendor, with its similarity score rounded to three decimals. -/
theorem possible_matches_first_five (docs : List DocRow) (recs : List RecRow)
    (h : String) (fields : InFields) (vd : DupVerdict)
    (hv : detect_duplicates docs recs h fields = some vd)
    (hc : vd.certainty = "possible") :
    vd.matchesList.length ≤ 5 ∧
    ∃ v, norm_vendor fields.vendor = some v ∧
      vd.matchesList = (possibleSuspects recs v
        (norm_invoice_no fields.invoice_number) fields.total
        fields.invoice_date).take 5 ∧
      ∀ m ∈ vd.matchesList, ∃ r ∈ recs, m.mtype = "record" ∧ m.id = r.id ∧
        m.similarity = some (round3 (similar
          (norm_invoice_no fields.invoice_number)
          r.fields.invoice_number_norm)) := by
  unfold detect_duplicates at hv
  rcases hfind : docs.find? (fun x => x.hash = some h) with _ | d0 <;>
    rw [hfind] at hv
  · rcases hvend : norm_vendor fields.vendor with _ | v <;>
      simp only [hvend] at hv
    · simp at hv
    · have hmain : ∀ hv2 : (if possibleSuspects recs v
          (norm_invoice_no fields.invoice_number) fields.total
            fields.invoice_date ≠ [] then
          some (DupVerdict.mk "possible"
            "Near-duplicate by vendor+invoice heuristics"
            ((possibleSuspects recs v (norm_invoice_no fields.invoice_number)
              fields.total fields.invoice_date).take 5))
          else none) = some vd,
          vd.matchesList.length ≤ 5 ∧
          ∃ v', some v = some v' ∧
            vd.matchesList = (possibleSuspects recs v'
              (norm_invoice_no fields.invoice_number) fields.total
              fields.invoice_date).take 5 ∧
            ∀ m ∈ vd.matchesList, ∃ r ∈ recs, m.mtype = "record" ∧
              m.id = r.id ∧
              m.similarity = some (round3 (similar
                (norm_invoice_no fields.invoice_number)
                r.fields.invoice_number_norm)) := by
        intro hv2
        by_cases hs : possibleSuspects recs v
            (norm_invoice_no fields.invoice_number) fields.total
            fields.invoice_date = []
        · simp [hs] at hv2
        · rw [if_pos hs] at hv2
          cases hv2
          refine ⟨?_, v, rfl, rfl, ?_⟩
          · simp
          · intro m hm
            have hm' := List.mem_of_mem_take hm
            unfold possibleSuspects at hm'
            obtain ⟨r, hrf, rfl⟩ := List.mem_map.mp hm'
            have hr1 := List.mem_filter.mp hrf
            have hr2 := List.mem_filter.mp hr1.1
            exact ⟨r, hr2.1, rfl, rfl, rfl⟩
      rcases hn : norm_invoice_no fields.invoice_number with _ | n <;>
        simp only [hn] at hv hmain ⊢
      · exact hmain hv
      · rcases hlf : recs.find? (fun x => likelyHit v n x) with _ | r0 <;>
          simp only [hlf] at hv
        · exact hmain hv
        · cases hv
          simp at hc
  · cases hv
    simp at hc

/-- C3 witness. -/
theorem possible_matches_first_five_witness :
    (DupVerdict.mk "possible" "Near-duplicate by vendor+invoice heuristics"
      [DupMatch.mk "record" "rec_1" (some (933 / 1000))]).matchesList.length ≤ 5 ∧
    ∃ v, norm_vendor (InFields.mk (some "Acme") (some "INV-01024") none
        none).vendor = some v ∧
      (DupVerdict.mk "possible" "Near-duplicate by vendor+invoice heuristics"
        [DupMatch.mk "record" "rec_1"
          (some (933 / 1000))]).matchesList =
        (possibleSuspects [acmeRec] v
          (norm_invoice_no (InFields.mk (some "Acme") (some "INV-01024") none
            none).invoice_number)
          (InFields.mk (some "Acme") (some "INV-01024") none none).total
          (InFields.mk (some "Acme") (some "INV-01024") none
            none).invoice_date).take 5 ∧
      ∀ m ∈ (DupVerdict.mk "possible"
          "Near-duplicate by vendor+invoice heuristics"
          [DupMatch.mk "record" "rec_1" (some (933 / 1000))]).matchesList,
        ∃ r ∈ [acmeRec], m.mtype = "record" ∧ m.id = r.id ∧
          m.similarity = some (round3 (similar
            (norm_invoice_no (InFields.mk (some "Acme") (some "INV-01024")
              none none).invoice_number)
            r.fields.invoice_number_norm)) :=
  possible_matches_first_five [] [acmeRec] "H2"
    (InFields.mk (some "Acme") (some "INV-01024") none none)
    (DupVerdict.mk "possible" "Near-duplicate by vendor+invoice heuristics"
      [DupMatch.mk "record" "rec_1" (some (933 / 1000))])
    (by decide) rfl

/-- C3 counterexample: with five total/date suspects ahead of it in table
order, a sixth qualifying record of strictly higher similarity (12/13,
rounded 0.923, against 1/4 for the kept five) is dropped by the `[:5]` cap —
the returned matches are not the five highest-confidence hits. -/
theorem possible_matches_drop_higher_similarity :
    detect_duplicates [] capRecs "H" capFields =
      some (DupVerdict.mk "possible"
        "Near-duplicate by vendor+invoice heuristics"
        [DupMatch.mk "record" "r1" (some (1 / 4)),
         DupMatch.mk "record" "r2" (some (1 / 4)),
         DupMatch.mk "record" "r3" (some (1 / 4)),
         DupMatch.mk "record" "r4" (some (1 / 4)),
         DupMatch.mk "record" "r5" (some (1 / 4))]) ∧
    possibleQualifies (norm_invoice_no capFields.invoice_number)
      capFields.total capFields.invoice_date
      (RecRow.mk "r6" (RecFields.mk (some "acme") (some "abc1234") (some 500)
        none)) = true ∧
    round3 (similar (norm_invoice_no capFields.invoice_number)
      (some "abc1234")) = 923 / 1000 ∧
    (1 : ℚ) / 4 < 923 / 1000 := by
  refine ⟨by decide, by decide, by decide, by norm_num⟩

/-- C5 (amended): the date loop tries the four formats in order and uses the
first that parses; a string matching none of them is left in place by the
loop itself (which raises nothing) — but the subsequent `InvoiceFields`
schema validation re-parses leftover strings, and an exception does escape
normalization for any string pydantic's own datetime coercion cannot
handle. -/
theorem date_formats_order_and_validation (s : String) (raw : RawInvoice)
    (fid : String) (hd : raw.invoice_date = some s) :
    (∀ d, strptimeMDY '/' false s.data = some d → tryDateFormats s = some d) ∧
    (strptimeMDY '/' false s.data = none →
      ∀ d, strptimeMDY '/' true s.data = some d → tryDateFormats s = some d) ∧
    (strptimeMDY '/' false s.data = none →
      strptimeMDY '/' true s.data = none →
      ∀ d, strptimeYMD '-' s.data = some d → tryDateFormats s = some d) ∧
    (strptimeMDY '/' false s.data = none →
      strptimeMDY '/' true s.data = none → strptimeYMD '-' s.data = none →
      ∀ d, strptimeYMD '/' s.data = some d → tryDateFormats s = some d) ∧
    (tryDateFormats (pyStrip s) = none →
      applyDateLoop (some s) = DateSlot.str s) ∧
    (tryDateFormats (pyStrip s) = none → pydanticDatetimeOfString s = none →
      (normalize_invoice_fields raw fid).isOk = false) := by
  have hloop : tryDateFormats (pyStrip s) = none →
      applyDateLoop (some s) = DateSlot.str s := by
    intro h5
    simp only [applyDateLoop]
    split
    · rfl
    · rw [h5]
  refine ⟨?_, ?_, ?_, ?_, hloop, ?_⟩
  · intro d h1
    simp [tryDateFormats, List.findSome?, h1]
  · intro h1 d h2
    simp [tryDateFormats, List.findSome?, h1, h2]
  · intro h1 h2 d h3
    simp [tryDateFormats, List.findSome?, h1, h2, h3]
  · intro h1 h2 h3 d h4
    simp [tryDateFormats, List.findSome?, h1, h2, h3, h4]
  · intro h5 h6
    have hval : validateDatetimeField (applyDateLoop raw.invoice_date) =
        Except.error ("Input should be a valid datetime, unable to parse: "
          ++ s) := by
      rw [hd, hloop h5]
      simp [validateDatetimeField, h6]
    unfold normalize_invoice_fields
    rcases hm : raw.line_items.mapM validateLineItem with msg | items
    · simp only [hm]
      rfl
    · simp only [hm, hval]
      rfl

/-- C5 counterexample: for the unparseable date string "tomorrow" the
original claim fails — normalization does not return with the string left in
the field; it raises (pydantic cannot coerce the leftover string), so an
exception escapes. -/
theorem unparseable_date_raises :
    (normalize_invoice_fields
      (RawInvoice.mk (some "V") (some "1") (some "tomorrow") none none
        (some 10) none none []) "doc").isOk = false := by decide

/-- C5 witness. -/
theorem date_formats_order_and_validation_witness :
    (normalize_invoice_fields
      (RawInvoice.mk (some "V") (some "1") (some "tomorrow") none none
        (some 10) none none []) "doc").isOk = false :=
  (date_formats_order_and_validation "tomorrow"
    (RawInvoice.mk (some "V") (some "1") (some "tomorrow") none none
      (some 10) none none []) "doc" rfl).2.2.2.2.2 (by decide) (by decide)

/-- A successful `Except` bind factors through a successful first stage. -/
theorem exceptBind_ok {ε α β : Type} (x : Except ε α) (f : α → Except ε β)
    (b : β) :
    x >>= f = Except.ok b ↔ ∃ a, x = Except.ok a ∧ f a = Except.ok b := by
  cases x <;> simp [Bind.bind, Except.bind]

/-- C7: whenever normalization succeeds, the returned invoice fields carry a
non-null total equal to the raw total (0.0 when absent), vendor defaulting to
"Unknown Vendor" and invoice number synthesized from the document id when
missing; the receipt path likewise defaults total and merchant. -/
theorem normalize_defaults (raw : RawInvoice) (fid : String)
    (out : NormInvoice) (hI : normalize_invoice_fields raw fid = Except.ok out)
    (rawR : RawReceipt) (outR : NormReceipt)
    (hR : normalize_receipt_fields rawR = Except.ok outR) :
    out.total = raw.total.getD 0 ∧ (raw.total = none → out.total = 0) ∧
    out.vendor = raw.vendor.getD "Unknown Vendor" ∧
    (raw.vendor = none → out.vendor = "Unknown Vendor") ∧
    out.invoice_number = raw.invoice_number.getD (synthInvoiceNumber fid) ∧
    (raw.invoice_number = none →
      out.invoice_number = synthInvoiceNumber fid) ∧
    outR.total = rawR.total.getD 0 ∧ (rawR.total = none → outR.total = 0) ∧
    outR.merchant = rawR.merchant.getD "Unknown Merchant" := by
  unfold normalize_invoice_fields at hI
  rw [exceptBind_ok] at hI
  obtain ⟨items, hitems, hI⟩ := hI
  rw [exceptBind_ok] at hI
  obtain ⟨invD, hinvD, hI⟩ := hI
  rw [exceptBind_ok] at hI
  obtain ⟨dueD, hdueD, hI⟩ := hI
  cases hI
  unfold normalize_receipt_fields at hR
  rw [exceptBind_ok] at hR
  obtain ⟨dtR, hdtR, hR⟩ := hR
  cases hR
  refine ⟨rfl, ?_, rfl, ?_, rfl, ?_, rfl, ?_, rfl⟩
  · intro h
    rw [h]
    rfl
  · intro h
    rw [h]
    rfl
  · intro h
    rw [h]
    rfl
  · intro h
    rw [h]
    rfl

/-- C7 witness. -/
theorem normalize_defaults_witness :
    (NormInvoice.mk "Unknown Vendor" "INV-UNKNOWN" none none none 0 none none
      []).total = (RawInvoice.mk none none none none none none none none
        []).total.getD 0 ∧
    ((RawInvoice.mk none none none none none none none none []).total = none →
      (NormInvoice.mk "Unknown Vendor" "INV-UNKNOWN" none none none 0 none
        none []).total = 0) ∧
    (NormInvoice.mk "Unknown Vendor" "INV-UNKNOWN" none none none 0 none none
      []).vendor = (RawInvoice.mk none none none none none none none none
        []).vendor.getD "Unknown Vendor" ∧
    ((RawInvoice.mk none none none none none none none none []).vendor = none →
      (NormInvoice.mk "Unknown Vendor" "INV-UNKNOWN" none none none 0 none
        none []).vendor = "Unknown Vendor") ∧
    (NormInvoice.mk "Unknown Vendor" "INV-UNKNOWN" none none none 0 none none
      []).invoice_number = (RawInvoice.mk none none none none none none none
        none []).invoice_number.getD (synthInvoiceNumber "") ∧
    ((RawInvoice.mk none none none none none none none none
      []).invoice_number = none →
      (NormInvoice.mk "Unknown Vendor" "INV-UNKNOWN" none none none 0 none
        none []).invoice_number = synthInvoiceNumber "") ∧
    (NormReceipt.mk "Unknown Merchant" none none none 0 none).total =
      (RawReceipt.mk none none none none none none).total.getD 0 ∧
    ((RawReceipt.mk none none none none none none).total = none →
      (NormReceipt.mk "Unknown Merchant" none none none 0 none).total = 0) ∧
    (NormReceipt.mk "Unknown Merchant" none none none 0 none).merchant =
      (RawReceipt.mk none none none none none none).merchant.getD
        "Unknown Merchant" :=
  normalize_defaults (RawInvoice.mk none none none none none none none none [])
    "" (NormInvoice.mk "Unknown Vendor" "INV-UNKNOWN" none none none 0 none
      none []) rfl
    (RawReceipt.mk none none none none none none)
    (NormReceipt.mk "Unknown Merchant" none none none 0 none) rfl

/-- C8 (amended): a `BadRequestError` from the requested (non-fallback)
model triggers exactly one retry against the fixed fallback model; a fallback
success returns its payload, but the extraction metadata always records the
configured `EXTRACTION_MODEL`, not the fallback; a fallback failure — or any
other request-level fault — raises a single unified error carrying the
*requested* model's name together with the upstream message and body. -/
theorem gateway_fallback_policy {α : Type} (backend : String → ApiResult α)
    (model m : String) (b : Option String) :
    (backend model = ApiResult.badRequest m b → model ≠ FALLBACK_MODEL →
      (chat_json_with_images backend model).2 = [model, FALLBACK_MODEL] ∧
      (∀ p, backend FALLBACK_MODEL = ApiResult.ok p →
        (chat_json_with_images backend model).1 = Except.ok p) ∧
      (∀ m' b', backend FALLBACK_MODEL = ApiResult.badRequest m' b' →
        (chat_json_with_images backend model).1 =
          Except.error (PyError.gatewayError model m' b')) ∧
      (∀ m' b', backend FALLBACK_MODEL = ApiResult.apiFault m' b' →
        (chat_json_with_images backend model).1 =
          Except.error (PyError.gatewayError model m' b'))) ∧
    (backend model = ApiResult.apiFault m b →
      (chat_json_with_images backend model).1 =
        Except.error (PyError.gatewayError model m b) ∧
      (chat_json_with_images backend model).2 = [model]) ∧
    (∀ bk : String → ApiResult RawInvoice, ∀ p meta,
      extract_invoice_fields_vision bk = Except.ok (p, meta) →
      meta.model = EXTRACTION_MODEL) := by
  refine ⟨?_, ?_, ?_⟩
  · intro h1 h2
    unfold chat_json_with_images
    simp only [h1]
    rw [if_pos h2]
    rcases hfb : backend FALLBACK_MODEL with p | ⟨m3, b3⟩ | ⟨m3, b3⟩ | _
    · refine ⟨rfl, ?_, ?_, ?_⟩
      · intro q hq
        cases hq
        rfl
      · intro m4 b4 hq
        cases hq
      · intro m4 b4 hq
        cases hq
    · refine ⟨rfl, ?_, ?_, ?_⟩
      · intro q hq
        cases hq
      · intro m4 b4 hq
        cases hq
        rfl
      · intro m4 b4 hq
        cases hq
    · refine ⟨rfl, ?_, ?_, ?_⟩
      · intro q hq
        cases hq
      · intro m4 b4 hq
        cases hq
      · intro m4 b4 hq
        cases hq
        rfl
    · refine ⟨rfl, ?_, ?_, ?_⟩
      · intro q hq
        cases hq
      · intro m4 b4 hq
        cases hq
      · intro m4 b4 hq
        cases hq
  · intro h1
    unfold chat_json_with_images
    rw [h1]
    exact ⟨rfl, rfl⟩
  · intro bk p meta hok
    unfold extract_invoice_fields_vision at hok
    rcases hres : (chat_json_with_images bk EXTRACTION_MODEL).1 with e | payload <;>
      rw [hres] at hok
    · cases hok
    · cases hok
      rfl

/-- C8 witness. -/
theorem gateway_fallback_policy_witness :
    (chat_json_with_images fallbackBackend "o3").2 = ["o3", FALLBACK_MODEL] ∧
    (chat_json_with_images fallbackBackend "o3").1 = Except.ok invRawBase := by
  obtain ⟨h1, h2, h3, h4⟩ :=
    (gateway_fallback_policy fallbackBackend "o3" "model rejected the request"
      none).1 (by decide) (by decide)
  exact ⟨h1, h2 invRawBase (by decide)⟩

/-- C8 counterexample: with the primary model rejecting the request and the
fallback succeeding, the returned extraction metadata still records model
"o3" (the configured extraction model), not `FALLBACK_MODEL` — the claim's
`model == fallback_model` does not hold. -/
theorem fallback_metadata_counterexample :
    extract_invoice_fields_vision fallbackBackend =
      Except.ok (invRawBase, ExtractMeta.mk "o3") ∧
    (chat_json_with_images fallbackBackend EXTRACTION_MODEL).2 =
      ["o3", "gpt-4o-mini"] ∧
    ExtractMeta.mk "o3" ≠ ExtractMeta.mk FALLBACK_MODEL := by
  refine ⟨rfl, by decide, by decide⟩

/-- C9 (amended): the extraction's confidence is exactly the classifier
payload's confidence value — defaulting to 0.0 when the key is absent and
never null (it is a real number in every case, 0.0 on the degraded text-only
path) — but it is *not* clamped: it lies in [0,1] when the payload's value
does, and only then. -/
theorem extraction_confidence_policy (env : VisionEnv) (docId text : String)
    (pl : ClassifierPayload)
    (hc : env.classifierCall CLASSIFIER_MODEL = ApiResult.ok pl) :
    (∀ e, run_extraction env docId true text = Except.ok e →
      e.confidence = pl.confidence.getD 0) ∧
    (pl.confidence = none →
      ∀ e, run_extraction env docId true text = Except.ok e →
        e.confidence = 0) ∧
    (∀ q, pl.confidence = some q → 0 ≤ q → q ≤ 1 →
      ∀ e, run_extraction env docId true text = Except.ok e →
        0 ≤ e.confidence ∧ e.confidence ≤ 1) ∧
    (∀ e, run_extraction env docId false text = Except.ok e →
      e.confidence = 0) := by
  have hcl : classify_document_vision env.classifierCall =
      Except.ok (docTypeMap (pl.ptype.getD "other"), pl.confidence.getD 0,
        ClassifierMeta.mk pl CLASSIFIER_MODEL) := by
    unfold classify_document_vision chat_json_with_images
    rw [hc]
  have hmain : ∀ e, run_extraction env docId true text = Except.ok e →
      e.confidence = pl.confidence.getD 0 := by
    intro e he
    unfold run_extraction at he
    rw [if_pos rfl] at he
    simp only [hcl] at he
    rcases hdt : docTypeMap (pl.ptype.getD "other") with _ | _ | _ | _ | _ <;>
      simp only [hdt] at he
    · rcases hx : extract_invoice_fields_vision env.invoiceCall with e2 | pm
      · simp only [hx] at he
        cases he
      · obtain ⟨payload, meta⟩ := pm
        simp only [hx] at he
        rcases hn : normalize_invoice_fields payload docId with msg | f <;>
          simp only [hn] at he
        · cases he
        · cases he
          rfl
    · rcases hx : extract_receipt_fields_vision env.receiptCall with e2 | pm
      · simp only [hx] at he
        cases he
      · obtain ⟨payload, meta⟩ := pm
        simp only [hx] at he
        rcases hn : normalize_receipt_fields payload with msg | f <;>
          simp only [hn] at he
        · cases he
        · cases he
          rfl
    · rcases hx : (chat_json_with_images env.summaryCall EXTRACTION_MODEL).1
        with e2 | pm <;> simp only [hx] at he
      · cases he
      · cases he
        rfl
    · rcases hx : (chat_json_with_images env.summaryCall EXTRACTION_MODEL).1
        with e2 | pm <;> simp only [hx] at he
      · cases he
      · cases he
        rfl
    · rcases hx : (chat_json_with_images env.summaryCall EXTRACTION_MODEL).1
        with e2 | pm <;> simp only [hx] at he
      · cases he
      · cases he
        rfl
  refine ⟨hmain, ?_, ?_, ?_⟩
  · intro hnone e he
    rw [hmain e he, hnone]
    rfl
  · intro q hq h0 h1 e he
    rw [hmain e he, hq]
    exact ⟨h0, h1⟩
  · intro e he
    unfold run_extraction at he
    rw [if_neg (by simp)] at he
    cases he
    rfl

/-- C9 witness. -/
theorem extraction_confidence_policy_witness :
    0 ≤ (ExtractionOut.mk "o3" "generic_v1"
      (ExtFields.summary "a summary" none) (1 / 2)
        DocumentType.OTHER).confidence ∧
    (ExtractionOut.mk "o3" "generic_v1" (ExtFields.summary "a summary" none)
      (1 / 2) DocumentType.OTHER).confidence ≤ 1 :=
  (extraction_confidence_policy calmEnv "doc1" ""
    (ClassifierPayload.mk (some "other") (some (1 / 2)) none) rfl).2.2.1
    (1 / 2) rfl (by norm_num) (by norm_num)
    (ExtractionOut.mk "o3" "generic_v1" (ExtFields.summary "a summary" none)
      (1 / 2) DocumentType.OTHER) rfl

/-- C9 counterexample: a classifier payload reporting confidence 2.0 flows
unclamped into the persisted extraction — the resulting confidence is 2,
which is not in [0,1]. -/
theorem confidence_unclamped_counterexample :
    run_extraction overconfidentEnv "doc1" true "" =
      Except.ok (ExtractionOut.mk "o3" "generic_v1"
        (ExtFields.summary "a summary" none) 2 DocumentType.OTHER) ∧
    ¬ ((2 : ℚ) ≤ 1) := by
  refine ⟨rfl, by norm_num⟩

end SFC
